import Mathlib

/-!
Verification of the `tcpserv` framing protocol (`src/tcpserv.py`).

Shallow embedding conventions:
* A byte string (Python 2 `str`) is a `List Nat` of byte values.
* Python exceptions are `Except PyErr`: `ValueError` (the spec's
  `ValidationError`) and `struct.error`.
* A socket's incoming byte stream is a `List Nat` of the bytes the peer
  sends before closing.  `sock.recv(k)` returns at most `k` bytes, at
  least one while the stream still has data (blocking semantics), and
  the empty string once the peer has closed and the data is drained.
  The transport's per-call chunking is an oracle `frag : Nat → Nat`
  (step index ↦ how many bytes the transport offers).
* Loops are given fuel; `none` means the loop has not returned within
  that many iterations (for every fuel = the loop never returns).
* Network output of a role is a trace of `NetAction`s, in program order.
-/

/-- Python errors raised by the code: `ValueError` (the spec's
`ValidationError`) and `struct.error` from `struct.pack`/`struct.unpack`. -/
inductive PyErr : Type
  | valueError
  | structError
deriving DecidableEq, Repr

/-- A Python value passed to `request` as `data` or returned by a handler:
either a `str` (byte string) or some value of a different type
(`type(x) != str`). -/
inductive PyVal : Type
  | str (s : List Nat)
  | nonStr
deriving DecidableEq, Repr

/-- Observable network output actions of a role, in program order. -/
inductive NetAction : Type
  | connect
  | send (bs : List Nat)
  | close
deriving DecidableEq, Repr

/-- `DATA_SIZE_LEN = len(struct.pack("!I", 0))`, i.e. 4
(`src/tcpserv.py` line 43). -/
def DATA_SIZE_LEN : Nat := 4

/-- `MAX_DATA = 2**(DATA_SIZE_LEN*8)` (`src/tcpserv.py` line 48). -/
def MAX_DATA : Nat := 2 ^ (DATA_SIZE_LEN * 8)

/-- `struct.pack("!I", n)`: big-endian unsigned 32-bit.  Raises
`struct.error` when `n` is out of range for the `I` format code
(`n ≥ 2^32`); otherwise yields the four big-endian bytes. -/
def structPackI (n : Nat) : Except PyErr (List Nat) :=
  if n < 2 ^ 32 then
    .ok [n / 2 ^ 24 % 256, n / 2 ^ 16 % 256, n / 2 ^ 8 % 256, n % 256]
  else
    .error .structError

/-- `struct.unpack("!I", bs)[0]`: requires exactly 4 bytes (else
`struct.error`) and interprets them as a big-endian unsigned 32-bit
integer. -/
def structUnpackI (bs : List Nat) : Except PyErr Nat :=
  match bs with
  | [a, b, c, d] => .ok (a * 2 ^ 24 + b * 2 ^ 16 + c * 2 ^ 8 + d)
  | _ => .error .structError

/-- The loop of `_recvn` (`src/tcpserv.py` lines 120-126):

    buf = []; m = 0
    while m < n:
        pack = sock.recv(n-m)
        m += len(pack)
        buf.append(pack)
    return "".join(buf)

State: step index `i`, bytes accumulated `m`, flattened buffer `buf`,
trace `reqs` of the sizes passed to `recv`, and the remaining stream `s`.
`sock.recv(k)` is modelled as `s.take (min k (frag i))`: it returns at
most the `k` requested bytes, at most what the transport offers
(`frag i`), and nothing once the stream is exhausted (peer closed).
Returns the flattened buffer, the unread rest of the stream and the
request-size trace, or `none` if the loop does not finish within `fuel`
iterations. -/
def recvnLoop (frag : Nat → Nat) (n : Nat) :
    Nat → Nat → Nat → List Nat → List Nat → List Nat →
    Option (List Nat × List Nat × List Nat)
  | fuel, i, m, buf, reqs, s =>
    if m < n then
      match fuel with
      | 0 => none
      | fuel' + 1 =>
        let pack := s.take (min (n - m) (frag i))
        recvnLoop frag n fuel' (i + 1) (m + pack.length) (buf ++ pack)
          (reqs ++ [n - m]) (s.drop pack.length)
    else
      some (buf, s, reqs)

/-- `_recvn(sock, n)` (`src/tcpserv.py` lines 116-126): read exactly `n`
bytes from the stream `s`, fragmented according to `frag`. -/
def recvn (frag : Nat → Nat) (fuel n : Nat) (s : List Nat) :
    Option (List Nat × List Nat × List Nat) :=
  recvnLoop frag n fuel 0 0 [] [] s

/-- The encoding path shared by `request` (lines 100-108) and `_server`
(lines 140-146): validate the payload length against `MAX_DATA`
(`ValueError` on violation), pack the length with `struct.pack("!I", ·)`,
and emit the 4-byte prefix followed by the raw payload. -/
def encodeFrame (d : List Nat) : Except PyErr (List Nat) :=
  if d.length > MAX_DATA then
    .error .valueError
  else
    match structPackI d.length with
    | .error e => .error e
    | .ok b4 => .ok (b4 ++ d)

/-- The decoding path shared by `request` (lines 109-111) and `_server`
(lines 136-138): exact-read 4 bytes, unpack them as the big-endian
length `n`, then exact-read `n` payload bytes.  `none` means one of the
exact-reads did not return within `fuel` iterations. -/
def decodeFrame (frag : Nat → Nat) (fuel : Nat) (s : List Nat) :
    Option (Except PyErr (List Nat)) :=
  match recvn frag fuel 4 s with
  | none => none
  | some (b4, rest, _) =>
    match structUnpackI b4 with
    | .error e => some (.error e)
    | .ok n =>
      match recvn frag fuel n rest with
      | none => none
      | some (dat, _, _) => some (.ok dat)

/-- `request(host, port, data)` (`src/tcpserv.py` lines 88-113):
type-check and length-check `data`, connect, send the packed length and
the payload, exact-read the 4-byte response length, exact-read the
response payload, close, and return the response.  `respStream` is the
byte stream the server sends back; the result is the trace of network
actions performed together with the outcome (`none` = an exact-read did
not return within `fuel`). -/
def request (frag : Nat → Nat) (fuel : Nat) (data : PyVal)
    (respStream : List Nat) :
    List NetAction × Option (Except PyErr (List Nat)) :=
  match data with
  | .nonStr => ([], some (.error .valueError))
  | .str d =>
    if d.length > MAX_DATA then
      ([], some (.error .valueError))
    else
      match structPackI d.length with
      | .error e => ([.connect], some (.error e))
      | .ok b4 =>
        let acts : List NetAction := [.connect, .send b4, .send d]
        match recvn frag fuel DATA_SIZE_LEN respStream with
        | none => (acts, none)
        | some (b4r, rest, _) =>
          match structUnpackI b4r with
          | .error e => (acts, some (.error e))
          | .ok n =>
            match recvn frag fuel n rest with
            | none => (acts, none)
            | some (dat, _, _) => (acts ++ [.close], some (.ok dat))

/-- A server handler: maps the request byte string to a Python value
(`.ok`), or raises (`.error`). -/
def Handler : Type := List Nat → Except PyErr PyVal

/-- `_server(clientsock, handler)` (`src/tcpserv.py` lines 129-146):
exact-read the 4-byte request length, exact-read the request payload,
invoke the handler, type-check and length-check its return value, pack
the response length and send the prefix then the payload.  `input` is
the byte stream arriving from the client; the result is the trace of
network actions written to the connection together with the task's
outcome (`none` = an exact-read did not return within `fuel`).
Note: the source performs no `close` on `clientsock`. -/
def serverTask (frag : Nat → Nat) (fuel : Nat) (handler : Handler)
    (input : List Nat) :
    List NetAction × Option (Except PyErr Unit) :=
  match recvn frag fuel DATA_SIZE_LEN input with
  | none => ([], none)
  | some (b4, rest, _) =>
    match structUnpackI b4 with
    | .error e => ([], some (.error e))
    | .ok n =>
      match recvn frag fuel n rest with
      | none => ([], none)
      | some (req, _, _) =>
        match handler req with
        | .error e => ([], some (.error e))
        | .ok resp =>
          match resp with
          | .nonStr => ([], some (.error .valueError))
          | .str r =>
            if r.length > MAX_DATA then
              ([], some (.error .valueError))
            else
              match structPackI r.length with
              | .error e => ([], some (.error e))
              | .ok b4r => ([.send b4r, .send r], some (.ok ()))

/-- `echo_handler` from `_test` (`src/tcpserv.py` lines 151-152):
returns the request unchanged. -/
def echoHandler : Handler := fun d => .ok (.str d)

/-! ## Helper lemmas about the exact-read loop -/

/-- If the stream holds fewer than the `n - m` bytes still missing, the
`_recvn` loop never returns: once the stream is drained, `recv` keeps
returning the empty string, `m` stops growing, and `m < n` stays true
forever.  (`none` for every fuel bound = divergence.) -/
theorem recvnLoop_short (frag : Nat → Nat) (n : Nat) :
    ∀ (fuel i m : Nat) (buf reqs s : List Nat), m + s.length < n →
      recvnLoop frag n fuel i m buf reqs s = none := by
  intro fuel
  induction fuel with
  | zero =>
    intro i m buf reqs s h
    rw [recvnLoop]
    simp only [if_pos (show m < n by omega)]
  | succ fuel ih =>
    intro i m buf reqs s h
    rw [recvnLoop]
    simp only [if_pos (show m < n by omega)]
    apply ih
    have h1 : (s.take (min (n - m) (frag i))).length ≤ s.length := by
      simp [List.length_take]
    have h2 : (s.drop (s.take (min (n - m) (frag i))).length).length =
        s.length - (s.take (min (n - m) (frag i))).length := by
      simp [List.length_drop]
    omega

/-- Main invariant of the `_recvn` loop: if every `recv` yields at least
one byte while data remains (`1 ≤ frag j`), the stream holds the
`n - m` missing bytes, and the fuel covers them, the loop returns the
buffer extended by exactly the next `n - m` stream bytes, leaves the
rest of the stream unread, and each `recv` call requests a positive
count of at most the `n - m` bytes missing at entry. -/
theorem recvnLoop_spec (frag : Nat → Nat) (n : Nat)
    (hfrag : ∀ j, 1 ≤ frag j) :
    ∀ (fuel i m : Nat) (buf reqs s : List Nat),
      m ≤ n → n - m ≤ s.length → n - m ≤ fuel →
      ∃ reqs', recvnLoop frag n fuel i m buf reqs s =
          some (buf ++ s.take (n - m), s.drop (n - m), reqs ++ reqs') ∧
        ∀ r ∈ reqs', 0 < r ∧ r ≤ n - m := by
  intro fuel
  induction fuel with
  | zero =>
    intro i m buf reqs s hm hs hfuel
    have hmn : m = n := by omega
    refine ⟨[], ?_, by simp⟩
    rw [recvnLoop]
    simp [hmn]
  | succ fuel ih =>
    intro i m buf reqs s hm hs hfuel
    by_cases hlt : m < n
    · rw [recvnLoop]
      simp only [if_pos hlt]
      have hmin : min (n - m) (frag i) ≤ s.length :=
        le_trans (Nat.min_le_left _ _) hs
      have hpacklen : (s.take (min (n - m) (frag i))).length =
          min (n - m) (frag i) := by
        simp [List.length_take]
        omega
      set L := min (n - m) (frag i) with hL
      have hL1 : 1 ≤ L := by
        have := hfrag i
        omega
      have hLle : L ≤ n - m := Nat.min_le_left _ _
      obtain ⟨reqs'', hrec, hreqs''⟩ :=
        ih (i + 1) (m + (s.take L).length) (buf ++ s.take L)
          (reqs ++ [n - m]) (s.drop L)
          (by rw [hpacklen]; omega)
          (by rw [hpacklen]; simp [List.length_drop]; omega)
          (by rw [hpacklen]; omega)
      rw [hpacklen] at hrec
      refine ⟨[n - m] ++ reqs'', ?_, ?_⟩
      · rw [hpacklen, hrec]
        have harith : n - (m + L) = n - m - L := by omega
        rw [harith]
        simp only [Option.some.injEq, Prod.mk.injEq]
        refine ⟨?_, ?_, ?_⟩
        · rw [List.append_assoc]
          congr 1
          rw [← List.take_add]
          congr 1
          omega
        · rw [List.drop_drop]
          congr 1
          omega
        · rw [List.append_assoc]
      · intro r hr
        rcases List.mem_append.mp hr with h | h
        · simp at h
          omega
        · have := hreqs'' r h
          omega
    · have hmn : m = n := by omega
      refine ⟨[], ?_, by simp⟩
      rw [recvnLoop]
      simp [hmn]

/-- Specialisation to `_recvn` itself: on a stream with at least `n`
bytes, with every underlying read non-empty and fuel at least `n`, the
exact-read returns the first `n` bytes, leaves the rest unread, and
every `recv` request size lies in `(0, n]`. -/
theorem recvn_spec (frag : Nat → Nat) (fuel n : Nat) (s : List Nat)
    (hfrag : ∀ j, 1 ≤ frag j) (hs : n ≤ s.length) (hfuel : n ≤ fuel) :
    ∃ reqs, recvn frag fuel n s = some (s.take n, s.drop n, reqs) ∧
      ∀ r ∈ reqs, 0 < r ∧ r ≤ n := by
  obtain ⟨reqs, hrec, hreqs⟩ :=
    recvnLoop_spec frag n hfrag fuel 0 0 [] [] s (Nat.zero_le n)
      (by simpa using hs) (by simpa using hfuel)
  refine ⟨reqs, ?_, ?_⟩
  · simpa [recvn] using hrec
  · intro r hr
    have := hreqs r hr
    omega

/-- Packing then unpacking a length below `2^32` is the identity, and
the packed form has exactly `DATA_SIZE_LEN = 4` bytes. -/
theorem structPackI_unpack (n : Nat) (h : n < 2 ^ 32) :
    ∃ b4, structPackI n = .ok b4 ∧ b4.length = 4 ∧
      structUnpackI b4 = .ok n := by
  have h32 : (2 : Nat) ^ 32 = 4294967296 := by norm_num
  rw [h32] at h
  refine ⟨[n / 2 ^ 24 % 256, n / 2 ^ 16 % 256, n / 2 ^ 8 % 256, n % 256],
    ?_, by simp, ?_⟩
  · simp only [structPackI, h32]
    rw [if_pos h]
  · simp only [structUnpackI]
    congr 1
    have h24 : (2 : Nat) ^ 24 = 16777216 := by norm_num
    have h16 : (2 : Nat) ^ 16 = 65536 := by norm_num
    have h8 : (2 : Nat) ^ 8 = 256 := by norm_num
    rw [h24, h16, h8]
    omega

-- sanity checks (concrete evaluation of the embedding)
example : recvn (fun _ => 1) 5 3 [1, 2, 3, 4, 5] =
    some ([1, 2, 3], [4, 5], [3, 2, 1]) := by decide

example : recvn (fun _ => 9) 5 1 [] = none := by decide

example : serverTask (fun _ => 4) 10 echoHandler [0, 0, 0, 0] =
    ([.send [0, 0, 0, 0], .send []], some (.ok ())) := by rfl

example : request (fun _ => 4) 10 (.str []) [0, 0, 0, 0] =
    ([.connect, .send [0, 0, 0, 0], .send [], .close], some (.ok [])) := by
  rfl

/-- `MAX_DATA` evaluates to `2^32`. -/
theorem MAX_DATA_eq : MAX_DATA = 4294967296 := by
  norm_num [MAX_DATA, DATA_SIZE_LEN]

/-- Packing a length of exactly `MAX_DATA = 2^32` fails: `2^32` is out
of range for `struct.pack("!I", ·)`. -/
theorem structPackI_MAX_DATA : structPackI MAX_DATA = .error .structError := by
  rw [structPackI, if_neg]
  rw [MAX_DATA_eq]
  norm_num

/-! ## Claim theorems -/

/-- Claim C1 (code_bug evidence): when the peer closes the stream after
delivering fewer than `n` bytes (every further read returns zero bytes),
`_recvn(sock, n)` does NOT fail with a `ConnectionClosed` error as the
claim states — the loop never returns at all: `recv` keeps yielding the
empty string, `m` stops growing, and the loop spins forever.  In the
fuel model this is `none` for every fuel bound. -/
theorem c1_recvn_premature_close_diverges (frag : Nat → Nat) (fuel n : Nat)
    (s : List Nat) (h : s.length < n) :
    recvn frag fuel n s = none := by
  unfold recvn
  exact recvnLoop_short frag n fuel 0 0 [] [] s (by omega)

/-- Witness for C1: a stream closed after 0 bytes, read with `n = 1`,
never returns for fuel 100. -/
theorem c1_recvn_premature_close_diverges_witness :
    ([] : List Nat).length < 1 ∧ recvn (fun _ => 1) 100 1 [] = none :=
  ⟨by decide, c1_recvn_premature_close_diverges (fun _ => 1) 100 1 [] (by decide)⟩

/-- Claim C4 (confirmed): for every `n` and every stream holding at
least `n` bytes whose underlying reads each return an arbitrary
non-empty chunk of the remaining bytes (`1 ≤ frag j`, including one byte
at a time), `_recvn(sock, n)` terminates (within fuel `n`) and returns
exactly the first `n` bytes of the stream in order — fragmentation of
delivery never changes the result. -/
theorem c4_recvn_fragmentation_first_n (frag : Nat → Nat) (fuel n : Nat)
    (s : List Nat) (hfrag : ∀ j, 1 ≤ frag j) (hs : n ≤ s.length)
    (hfuel : n ≤ fuel) :
    ∃ rest reqs, recvn frag fuel n s = some (s.take n, rest, reqs) := by
  obtain ⟨reqs, h, -⟩ := recvn_spec frag fuel n s hfrag hs hfuel
  exact ⟨s.drop n, reqs, h⟩

/-- Witness for C4: one-byte-at-a-time delivery of `[10,20,30,40,50]`,
`n = 3`, yields the first three bytes. -/
theorem c4_recvn_fragmentation_first_n_witness :
    (∀ j, 1 ≤ (fun _ : Nat => 1) j) ∧
    ∃ rest reqs, recvn (fun _ => 1) 3 3 [10, 20, 30, 40, 50] =
      some ([10, 20, 30], rest, reqs) := by
  refine ⟨fun _ => Nat.le_refl 1, ?_⟩
  have h := c4_recvn_fragmentation_first_n (fun _ => 1) 3 3 [10, 20, 30, 40, 50]
    (fun _ => Nat.le_refl 1) (by decide) (by decide)
  simpa using h

/-- Claim C9 (confirmed): `_recvn(sock, n)` requests at each step only
the `n - m` bytes still missing (every `recv` request size lies in
`(0, n]`), and consequently never consumes any byte of the stream
beyond the first `n`: the unread rest of the stream is exactly
`s.drop n`, left for subsequent reads. -/
theorem c9_recvn_never_overreads (frag : Nat → Nat) (fuel n : Nat)
    (s : List Nat) (hfrag : ∀ j, 1 ≤ frag j) (hs : n ≤ s.length)
    (hfuel : n ≤ fuel) :
    ∃ buf reqs, recvn frag fuel n s = some (buf, s.drop n, reqs) ∧
      ∀ r ∈ reqs, 0 < r ∧ r ≤ n := by
  obtain ⟨reqs, h, hr⟩ := recvn_spec frag fuel n s hfrag hs hfuel
  exact ⟨s.take n, reqs, h, hr⟩

/-- Witness for C9: two-byte chunks of `[1,2,3,4,5,6,7]`, `n = 4`,
leave `[5,6,7]` unread and keep each request size in `(0, 4]`. -/
theorem c9_recvn_never_overreads_witness :
    (∀ j, 1 ≤ (fun _ : Nat => 2) j) ∧
    ∃ buf reqs, recvn (fun _ => 2) 4 4 [1, 2, 3, 4, 5, 6, 7] =
      some (buf, [5, 6, 7], reqs) ∧ ∀ r ∈ reqs, 0 < r ∧ r ≤ 4 := by
  refine ⟨fun _ => one_le_two, ?_⟩
  have h := c9_recvn_never_overreads (fun _ => 2) 4 4 [1, 2, 3, 4, 5, 6, 7]
    (fun _ => one_le_two) (by decide) (by decide)
  simpa using h

/-- Claim C2 (code_bug evidence): a payload of length `MAX_DATA + 1` is
rejected with `ValueError` (the spec's `ValidationError`) by both the
client and the server — but a payload of length exactly
`MAX_DATA = 2^32` does NOT encode successfully as the claim states:
it passes the `> MAX_DATA` length check and then `struct.pack("!I", ·)`
fails with `struct.error`, because `2^32` is one past the largest value
a 4-byte unsigned field can hold.  On the client this happens after the
connect; on the server it aborts the task with no bytes written. -/
theorem c2_boundary_MAX_DATA :
    request (fun _ => 4) 10 (.str (List.replicate (MAX_DATA + 1) 49)) [] =
      ([], some (.error .valueError)) ∧
    request (fun _ => 4) 10 (.str (List.replicate MAX_DATA 49)) [] =
      ([.connect], some (.error .structError)) ∧
    serverTask (fun _ => 4) 10
      (fun _ => .ok (.str (List.replicate (MAX_DATA + 1) 49))) [0, 0, 0, 0] =
      ([], some (.error .valueError)) ∧
    serverTask (fun _ => 4) 10
      (fun _ => .ok (.str (List.replicate MAX_DATA 49))) [0, 0, 0, 0] =
      ([], some (.error .structError)) := by
  have hrecv4 : recvn (fun _ => 4) 10 4 [0, 0, 0, 0] =
      some ([0, 0, 0, 0], [], [4]) := by rfl
  have hunp : structUnpackI [0, 0, 0, 0] = .ok 0 := by rfl
  have hrecv0 : recvn (fun _ => 4) 10 0 [] = some ([], [], []) := by rfl
  refine ⟨?_, ?_, ?_, ?_⟩
  · simp only [request, List.length_replicate]
    rw [if_pos (by omega : MAX_DATA + 1 > MAX_DATA)]
  · simp only [request, List.length_replicate]
    rw [if_neg (by omega : ¬ MAX_DATA > MAX_DATA), structPackI_MAX_DATA]
  · simp only [serverTask, DATA_SIZE_LEN, hrecv4, hunp, hrecv0,
      List.length_replicate]
    rw [if_pos (by omega : MAX_DATA + 1 > MAX_DATA)]
  · simp only [serverTask, DATA_SIZE_LEN, hrecv4, hunp, hrecv0,
      List.length_replicate]
    rw [if_neg (by omega : ¬ MAX_DATA > MAX_DATA), structPackI_MAX_DATA]

/-- Counterexample for C3: the payload of `MAX_DATA = 2^32` bytes of
`'1'` has length `≤ MAX_DATA`, yet encoding it does not produce a frame
at all (`struct.pack("!I", 2^32)` fails), so decoding the encoding
cannot return the payload. -/
theorem c3_roundtrip_fails_at_MAX_DATA :
    (List.replicate MAX_DATA 49).length ≤ MAX_DATA ∧
    ¬ ∃ w, encodeFrame (List.replicate MAX_DATA 49) = .ok w := by
  constructor
  · simp
  · rintro ⟨w, hw⟩
    rw [encodeFrame] at hw
    simp only [List.length_replicate] at hw
    rw [if_neg (by omega : ¬ MAX_DATA > MAX_DATA), structPackI_MAX_DATA] at hw
    cases hw

/-- Claim C3 (amended: the range is `0 ≤ len(p) < MAX_DATA`; at
`len(p) = MAX_DATA` encoding itself fails, see the counterexample):
for every byte payload `p` with `len(p) < MAX_DATA`, encoding produces a
frame `w`, and decoding `w` — exact-reading 4 length bytes, interpreting
them big-endian, then exact-reading that many payload bytes — yields `p`
unchanged, for every non-empty read fragmentation and sufficient fuel. -/
theorem c3_decode_encode_roundtrip (d : List Nat) (frag : Nat → Nat)
    (fuel : Nat) (hd : d.length < MAX_DATA) (hfrag : ∀ j, 1 ≤ frag j)
    (hfuel4 : 4 ≤ fuel) (hfueln : d.length ≤ fuel) :
    ∃ w, encodeFrame d = .ok w ∧ decodeFrame frag fuel w = some (.ok d) := by
  have hlt : d.length < 2 ^ 32 := by
    have h32 : (2 : Nat) ^ 32 = 4294967296 := by norm_num
    rw [MAX_DATA_eq] at hd
    omega
  obtain ⟨b4, hpack, hlen4, hunpack⟩ := structPackI_unpack d.length hlt
  refine ⟨b4 ++ d, ?_, ?_⟩
  · rw [encodeFrame, if_neg (by omega : ¬ d.length > MAX_DATA), hpack]
  · obtain ⟨reqs1, hr1, -⟩ := recvn_spec frag fuel 4 (b4 ++ d) hfrag
      (by simp [List.length_append, hlen4]) hfuel4
    have htake : (b4 ++ d).take 4 = b4 := by
      rw [← hlen4]
      exact List.take_left b4 d
    have hdrop : (b4 ++ d).drop 4 = d := by
      rw [← hlen4]
      exact List.drop_left b4 d
    rw [htake, hdrop] at hr1
    obtain ⟨reqs2, hr2, -⟩ := recvn_spec frag fuel d.length d hfrag
      (Nat.le_refl _) hfueln
    rw [List.take_length, List.drop_length] at hr2
    rw [decodeFrame, hr1]
    simp only [hunpack, hr2]

/-- Witness for C3: the two-byte payload `[7, 8]` encodes to
`[0,0,0,2,7,8]` and decodes back to `[7, 8]` under one-byte delivery. -/
theorem c3_decode_encode_roundtrip_witness :
    ([7, 8] : List Nat).length < MAX_DATA ∧ (∀ j, 1 ≤ (fun _ : Nat => 1) j) ∧
    ∃ w, encodeFrame [7, 8] = .ok w ∧
      decodeFrame (fun _ => 1) 4 w = some (.ok [7, 8]) :=
  ⟨by decide, fun _ => Nat.le_refl 1,
    c3_decode_encode_roundtrip [7, 8] (fun _ => 1) 4 (by decide)
      (fun _ => Nat.le_refl 1) (by decide) (by decide)⟩

/-- Claim C6 (confirmed): for every payload `p` accepted by encoding
(i.e. `encodeFrame p` produces a frame `w`), the first 4 bytes of `w`,
interpreted as an unsigned big-endian 32-bit integer, equal `len(p)`. -/
theorem c6_length_prefix_correct (d w : List Nat)
    (h : encodeFrame d = .ok w) :
    structUnpackI (w.take 4) = .ok d.length := by
  rw [encodeFrame] at h
  by_cases hlen : d.length > MAX_DATA
  · rw [if_pos hlen] at h
    cases h
  · rw [if_neg hlen] at h
    have hlt : d.length < 2 ^ 32 := by
      by_contra hge
      rw [structPackI, if_neg hge] at h
      cases h
    obtain ⟨b4, hpack, hlen4, hunpack⟩ := structPackI_unpack d.length hlt
    rw [hpack] at h
    have hw : w = b4 ++ d := by
      cases h
      rfl
    subst hw
    rw [← hlen4, List.take_left, hunpack]

/-- Witness for C6: `encodeFrame [7, 8]` yields `[0,0,0,2,7,8]`, whose
first four bytes decode to the length 2. -/
theorem c6_length_prefix_correct_witness :
    encodeFrame [7, 8] = .ok [0, 0, 0, 2, 7, 8] ∧
    structUnpackI (([0, 0, 0, 2, 7, 8] : List Nat).take 4) =
      .ok ([7, 8] : List Nat).length :=
  ⟨by rfl, c6_length_prefix_correct [7, 8] [0, 0, 0, 2, 7, 8] (by rfl)⟩

/-- Counterexample for C5: the claim states the server-side connection
task closes the connection after writing the response frame, but
`_server` contains no `close` at all — here, an echo exchange on a
zero-length request produces an output trace with no close action. -/
theorem c5_server_does_not_close :
    NetAction.close ∉ (serverTask (fun _ => 4) 10 echoHandler [0, 0, 0, 0]).1 := by
  decide

/-- Claim C5 (amended: `_server` writes the encoded response frame —
the 4-byte length prefix, then the payload — and then simply ends; it
performs no explicit close, the socket being released only when the
task ends): for every accepted connection on which the handler returns
a valid response payload, the task's complete output trace is exactly
the two writes of the response frame, in order, with nothing after
them. -/
theorem c5_server_writes_frame_then_ends (frag : Nat → Nat) (fuel : Nat)
    (handler : Handler) (input b4 rest t1 : List Nat) (n : Nat)
    (req rest2 t2 r b4r : List Nat)
    (h1 : recvn frag fuel DATA_SIZE_LEN input = some (b4, rest, t1))
    (h2 : structUnpackI b4 = .ok n)
    (h3 : recvn frag fuel n rest = some (req, rest2, t2))
    (h4 : handler req = .ok (.str r))
    (h5 : ¬ r.length > MAX_DATA)
    (h6 : structPackI r.length = .ok b4r) :
    serverTask frag fuel handler input =
      ([.send b4r, .send r], some (.ok ())) := by
  rw [serverTask, h1]
  simp only [h2, h3, h4]
  rw [if_neg h5, h6]

/-- Witness for C5: the echo handler on a zero-length request writes the
length prefix `[0,0,0,0]` and the empty payload, and ends. -/
theorem c5_server_writes_frame_then_ends_witness :
    serverTask (fun _ => 4) 10 echoHandler [0, 0, 0, 0] =
      ([.send [0, 0, 0, 0], .send []], some (.ok ())) :=
  c5_server_writes_frame_then_ends (fun _ => 4) 10 echoHandler
    [0, 0, 0, 0] [0, 0, 0, 0] [] [4] 0 [] [] [] [] [0, 0, 0, 0]
    (by rfl) (by rfl) (by rfl) (by rfl) (by decide) (by rfl)

/-- Claim C7 (confirmed): `request(host, port, data)` validates its
input before performing any network operation — if `data` is not a byte
string, or its length exceeds `MAX_DATA`, the call fails with
`ValueError` (the spec's `ValidationError`) with an empty network action
trace: no connect attempted and no bytes written. -/
theorem c7_request_validates_before_network (frag : Nat → Nat)
    (fuel : Nat) (data : PyVal) (resp : List Nat)
    (h : data = .nonStr ∨ ∃ d, data = .str d ∧ d.length > MAX_DATA) :
    request frag fuel data resp = ([], some (.error .valueError)) := by
  rcases h with h | ⟨d, hd, hlen⟩
  · subst h
    rfl
  · subst hd
    rw [request]
    simp only [if_pos hlen]

/-- Witness for C7: a non-string argument is rejected with no network
actions. -/
theorem c7_request_validates_before_network_witness :
    request (fun _ => 1) 1 .nonStr [] = ([], some (.error .valueError)) :=
  c7_request_validates_before_network (fun _ => 1) 1 .nonStr []
    (Or.inl rfl)

/-- Claim C8 (confirmed): with an echo handler, a client request
carrying the empty payload puts exactly the frame
`[0,0,0,0]` (4-byte big-endian length 0, zero payload bytes) on the
wire in each direction, and `request()` returns the empty payload.
The client's sends (`connect`, length prefix, empty payload) are
exactly what the server task consumes as `input`, and the server's
sends flatten to the `[0,0,0,0]` the client consumes as its response
stream. -/
theorem c8_empty_payload_echo :
    request (fun _ => 4) 10 (.str []) [0, 0, 0, 0] =
      ([.connect, .send [0, 0, 0, 0], .send [], .close], some (.ok [])) ∧
    serverTask (fun _ => 4) 10 echoHandler [0, 0, 0, 0] =
      ([.send [0, 0, 0, 0], .send []], some (.ok ())) := by
  constructor
  · rfl
  · rfl

/-- Claim C10 (confirmed): if the handler raises when invoked by the
server-side connection task, the task writes no bytes at all to the
connection — the output trace is empty, no length prefix and no partial
response frame precede the propagating error. -/
theorem c10_handler_error_writes_nothing (frag : Nat → Nat) (fuel : Nat)
    (handler : Handler) (input b4 rest t1 : List Nat) (n : Nat)
    (req rest2 t2 : List Nat) (e : PyErr)
    (h1 : recvn frag fuel DATA_SIZE_LEN input = some (b4, rest, t1))
    (h2 : structUnpackI b4 = .ok n)
    (h3 : recvn frag fuel n rest = some (req, rest2, t2))
    (h4 : handler req = .error e) :
    serverTask frag fuel handler input = ([], some (.error e)) := by
  rw [serverTask, h1]
  simp only [h2, h3, h4]

/-- Witness for C10: a handler that raises `ValueError` on the empty
request leaves the output trace empty. -/
theorem c10_handler_error_writes_nothing_witness :
    serverTask (fun _ => 4) 10 (fun _ => .error .valueError) [0, 0, 0, 0] =
      ([], some (.error .valueError)) :=
  c10_handler_error_writes_nothing (fun _ => 4) 10
    (fun _ => .error .valueError) [0, 0, 0, 0] [0, 0, 0, 0] [] [4] 0
    [] [] [] .valueError (by rfl) (by rfl) (by rfl) (by rfl)
